import Mathlib

/-!
Shallow embedding of the Thermador UCVM36XS → Cloudline A6 fan translator.

Two source variants are embedded:
* Variant A — the compact 5-level sketch
  (`Arduino-Translator-For-Thermador-UCVM36XS-to-CLOUDLINE-A6-Fan.ino`):
  `FAN_SPEEDS = {0.0, 0.25, 0.50, 0.75, 1.0}`, a `manualMode` flag,
  debounce interval 100 ms, commands off/low/medium/high/max/auto/status/test/help.
* Variant B — the 3-level sketch (`unnamed/part_000`):
  `FAN_OFF/FAN_LOW/FAN_MEDIUM/FAN_HIGH = 0.0/0.3/0.6/1.0`, no manual-mode flag,
  `debounceDelay = 50`, commands off/low/medium/high/status/test/help.

Arduino `float` arithmetic is modelled over `ℚ` (every constant and operation
used by the sketches is exact at this scale); `millis()` timestamps and the
pulse counter are `ℕ` (the sketches' unsigned arithmetic never wraps within the
modelled horizon, and every stored timestamp is ≤ the current time in reachable
states, so truncated subtraction agrees with the unsigned subtraction).
Digital pins are `Bool` (`true` = electrically high; the speed lines are
active-low behind pull-ups). `OCR1A` is the emitted PWM compare register.
-/

namespace FanTranslator

/-- `constrain(x, lo, hi)` from Arduino.h. -/
def constrain (x lo hi : ℚ) : ℚ := min hi (max lo x)

/-! ## Variant A: compact 5-level sketch -/

/-- `const float FAN_SPEEDS[] = {0.0, 0.25, 0.50, 0.75, 1.0};` -/
def FAN_SPEEDS : List ℚ := [0, 0.25, 0.50, 0.75, 1]

/-- The duty value `setFanSpeed` writes to `OCR1A`:
`speed = constrain(speed, 0.0, 1.0); if (speed == 0) OCR1A = 0;
else { float scaled = 0.20 + speed * 0.80; OCR1A = (uint16_t)(320 * scaled); }`
(the `uint16_t` cast truncates the nonnegative float toward zero). -/
def setFanSpeedDuty (speed : ℚ) : ℕ :=
  let sp := constrain speed 0 1
  if sp = 0 then 0 else Int.toNat ⌊320 * (0.20 + sp * 0.80)⌋

/-- RPM-estimator state: the `static` locals of `updateRPM` plus the global
`rpm`. Both variants share this code shape verbatim. -/
structure RpmState where
  lastRPMTime : ℕ
  lastCount : ℕ
  rpm : ℚ
deriving DecidableEq

/-- `updateRPM()`: if at least 1000 ms elapsed since the last window start,
recompute `rpm = (tachCount - lastCount) * 60.0 / 2.0` and refresh the
window markers; otherwise leave everything unchanged. -/
def updateRPM (now tachCount : ℕ) (r : RpmState) : RpmState :=
  if 1000 ≤ now - r.lastRPMTime then
    { lastRPMTime := now, lastCount := tachCount,
      rpm := ((tachCount - r.lastCount : ℕ) * 60 : ℚ) / 2 }
  else r

/-- Variant A mutable state: globals `currentSpeed`, `speedLevel`,
`lastChange`, `manualMode`, the PWM register `OCR1A`, the `static`
`lastUpdate` of `loop()`, and the RPM-estimator state. -/
structure AState where
  currentSpeed : ℚ
  speedLevel : ℕ
  lastChange : ℕ
  manualMode : Bool
  lastUpdate : ℕ
  OCR1A : ℕ
  rpmSt : RpmState
deriving DecidableEq

/-- `setFanSpeed(float speed)` as a state update (clamps, records
`currentSpeed`, writes the duty to `OCR1A`). -/
def setFanSpeed (speed : ℚ) (s : AState) : AState :=
  { s with currentSpeed := constrain speed 0 1,
           OCR1A := setFanSpeedDuty speed }

/-- `readSpeedLevel()`: priority scan of the four active-low speed lines,
highest tier first. Arguments are the raw `digitalRead` pin levels. -/
def readSpeedLevel (p1 p2 p3 p4 : Bool) : ℕ :=
  if !p4 then 4 else if !p3 then 3 else if !p2 then 2 else if !p1 then 1 else 0

/-- One input-sampling pass of variant A `loop()`: the
`if (millis() - lastUpdate > 50 && !manualMode)` block, which samples the
speed lines, applies the change-plus-100 ms debounce, emits the new duty on
an accepted change, and (inside the same guard) calls `updateRPM`. -/
def tickSample (now : ℕ) (p1 p2 p3 p4 : Bool) (tach : ℕ) (s : AState) : AState :=
  if 50 < now - s.lastUpdate ∧ s.manualMode = false then
    let s1 := { s with lastUpdate := now }
    let newLevel := readSpeedLevel p1 p2 p3 p4
    let s2 :=
      if newLevel ≠ s1.speedLevel ∧ 100 < now - s1.lastChange then
        let s3 := setFanSpeed (FAN_SPEEDS.getD newLevel 0) { s1 with speedLevel := newLevel }
        { s3 with lastChange := now }
      else s1
    { s2 with rpmSt := updateRPM now tach s2.rpmSt }
  else s

/-- The serial command vocabulary of variant A. -/
inductive Cmd where
  | off | low | medium | high | max | auto | status | test | help
deriving DecidableEq

/-- `runTest()`: steps `setFanSpeed(FAN_SPEEDS[i])` for `i = 0..4`, then
`setFanSpeed(0); speedLevel = 0;`. -/
def runTest (s : AState) : AState :=
  let s1 := (List.range 5).foldl (fun st i => setFanSpeed (FAN_SPEEDS.getD i 0) st) s
  { setFanSpeed 0 s1 with speedLevel := 0 }

/-- `handleCommands()` acting on one parsed command: each explicit speed
command assigns `speedLevel`, emits the mapped duty, and sets
`manualMode = true`; `auto` clears `manualMode`; `status`/`help` only print;
`test` runs the test routine. -/
def handleCommand (c : Cmd) (s : AState) : AState :=
  match c with
  | .off    => { setFanSpeed (FAN_SPEEDS.getD 0 0) { s with speedLevel := 0 } with manualMode := true }
  | .low    => { setFanSpeed (FAN_SPEEDS.getD 1 0) { s with speedLevel := 1 } with manualMode := true }
  | .medium => { setFanSpeed (FAN_SPEEDS.getD 2 0) { s with speedLevel := 2 } with manualMode := true }
  | .high   => { setFanSpeed (FAN_SPEEDS.getD 3 0) { s with speedLevel := 3 } with manualMode := true }
  | .max    => { setFanSpeed (FAN_SPEEDS.getD 4 0) { s with speedLevel := 4 } with manualMode := true }
  | .auto   => { s with manualMode := false }
  | .status => s
  | .test   => runTest s
  | .help   => s

/-- One iteration of variant A `loop()` at time `now`, with the given pin
levels, current pulse count, and at most one pending serial command: the
sampling/debounce/RPM block runs first, then `handleCommands()`
(status printing and the LED do not touch modelled state). -/
def loopStep (now : ℕ) (p1 p2 p3 p4 : Bool) (tach : ℕ) (cmd : Option Cmd) (s : AState) : AState :=
  let s1 := tickSample now p1 p2 p3 p4 tach s
  match cmd with
  | none => s1
  | some c => handleCommand c s1

/-- Variant A state right after `setup()`: zero-initialised globals and
`setFanSpeed(0.0)`. -/
def initA : AState :=
  setFanSpeed 0 { currentSpeed := 0, speedLevel := 0, lastChange := 0,
                  manualMode := false, lastUpdate := 0, OCR1A := 0,
                  rpmSt := { lastRPMTime := 0, lastCount := 0, rpm := 0 } }

/-- States reachable from startup by iterating `loop()`. -/
inductive ReachableA : AState → Prop
  | init : ReachableA initA
  | step (now : ℕ) (p1 p2 p3 p4 : Bool) (tach : ℕ) (cmd : Option Cmd) {s : AState} :
      ReachableA s → ReachableA (loopStep now p1 p2 p3 p4 tach cmd s)

/-- One sampling-only input event for variant A (a `loop()` iteration with no
pending serial byte). -/
structure TickIn where
  now : ℕ
  p1 : Bool
  p2 : Bool
  p3 : Bool
  p4 : Bool
  tach : ℕ

/-- Run `loop()` once per event, with no serial commands. -/
def runTicks (ticks : List TickIn) (s : AState) : AState :=
  ticks.foldl (fun st e => loopStep e.now e.p1 e.p2 e.p3 e.p4 e.tach none st) s

/-- Level-to-duty composition of variant A: `FAN_SPEEDS[L]` fed to
`setFanSpeed`. -/
def toDutyA (L : ℕ) : ℕ := setFanSpeedDuty (FAN_SPEEDS.getD L 0)

/-! ## Variant B: 3-level sketch (`unnamed/part_000`), digital control mode -/

/-- `#define FAN_OFF 0.0f` -/
def FAN_OFF : ℚ := 0
/-- `#define FAN_LOW 0.3f` -/
def FAN_LOW : ℚ := 0.3
/-- `#define FAN_MEDIUM 0.6f` -/
def FAN_MEDIUM : ℚ := 0.6
/-- `#define FAN_HIGH 1.0f` -/
def FAN_HIGH : ℚ := 1

/-- `unsigned long debounceDelay = 50;` -/
def debounceDelay : ℕ := 50

/-- The duty value `setCloudlineSpeed` writes to `OCR1A`:
`speed = constrain(speed, 0.0f, 1.0f); if (speed == 0) OCR1A = 0;
else { float minDuty = 0.20f; float scaledSpeed = minDuty + speed * (1.0f - minDuty);
OCR1A = (uint16_t)(320 * scaledSpeed); }`. -/
def setCloudlineSpeedDuty (speed : ℚ) : ℕ :=
  let sp := constrain speed 0 1
  if sp = 0 then 0 else
    let minDuty : ℚ := 0.20
    Int.toNat ⌊320 * (minDuty + sp * (1 - minDuty))⌋

/-- Variant B mutable state: globals `currentFanSpeed`, `currentSpeedLevel`,
`lastSpeedChange`, the PWM register `OCR1A`, the `static` `lastUpdate` of
`loop()`, and the RPM-estimator state. Note: no manual-mode flag exists in
this variant. -/
structure BState where
  currentFanSpeed : ℚ
  currentSpeedLevel : ℕ
  lastSpeedChange : ℕ
  lastUpdate : ℕ
  OCR1A : ℕ
  rpmSt : RpmState
deriving DecidableEq

/-- `setCloudlineSpeed(float speed)` as a state update. -/
def setCloudlineSpeed (speed : ℚ) (s : BState) : BState :=
  { s with currentFanSpeed := constrain speed 0 1,
           OCR1A := setCloudlineSpeedDuty speed }

/-- The `switch (currentSpeedLevel)` of `updateCloudlineSpeed()`. -/
def levelToTarget (L : ℕ) : ℚ :=
  match L with
  | 0 => FAN_OFF
  | 1 => FAN_LOW
  | 2 => FAN_MEDIUM
  | 3 => FAN_HIGH
  | _ => FAN_OFF

/-- `updateCloudlineSpeed()`: maps `currentSpeedLevel` through the switch and
calls `setCloudlineSpeed`. -/
def updateCloudlineSpeed (s : BState) : BState :=
  setCloudlineSpeed (levelToTarget s.currentSpeedLevel) s

/-- `readThermadorSpeed()` in digital control mode: priority scan of the
three active-low speed lines, highest first. Arguments are the raw
`digitalRead` pin levels. -/
def readThermadorSpeed (p1 p2 p3 : Bool) : ℕ :=
  if !p3 then 3 else if !p2 then 2 else if !p1 then 1 else 0

/-- One input-sampling pass of variant B `loop()`: the
`if (millis() - lastUpdate > 50)` block. Unlike variant A there is no
manual-mode guard, and `updateRPM()` runs on every sampling pass. -/
def bTickSample (now : ℕ) (p1 p2 p3 : Bool) (tach : ℕ) (s : BState) : BState :=
  if 50 < now - s.lastUpdate then
    let s1 := { s with lastUpdate := now }
    let newSpeedLevel := readThermadorSpeed p1 p2 p3
    let s2 :=
      if newSpeedLevel ≠ s1.currentSpeedLevel then
        if debounceDelay < now - s1.lastSpeedChange then
          let s3 := updateCloudlineSpeed { s1 with currentSpeedLevel := newSpeedLevel }
          { s3 with lastSpeedChange := now }
        else s1
      else s1
    { s2 with rpmSt := updateRPM now tach s2.rpmSt }
  else s

/-- The serial command vocabulary of variant B (no `max`, no `auto`). -/
inductive BCmd where
  | off | low | medium | high | status | test | help | unknown
deriving DecidableEq

/-- `runSpeedTest()`: `setCloudlineSpeed` through OFF/LOW/MEDIUM/HIGH, back to
OFF, then `currentSpeedLevel = 0;`. -/
def runSpeedTest (s : BState) : BState :=
  let s1 := setCloudlineSpeed FAN_OFF s
  let s2 := setCloudlineSpeed FAN_LOW s1
  let s3 := setCloudlineSpeed FAN_MEDIUM s2
  let s4 := setCloudlineSpeed FAN_HIGH s3
  { setCloudlineSpeed FAN_OFF s4 with currentSpeedLevel := 0 }

/-- `handleSerialCommands()` acting on one parsed command: each speed command
assigns `currentSpeedLevel` and calls `updateCloudlineSpeed()`; no mode flag
is touched (none exists). -/
def handleSerialCommand (c : BCmd) (s : BState) : BState :=
  match c with
  | .off    => updateCloudlineSpeed { s with currentSpeedLevel := 0 }
  | .low    => updateCloudlineSpeed { s with currentSpeedLevel := 1 }
  | .medium => updateCloudlineSpeed { s with currentSpeedLevel := 2 }
  | .high   => updateCloudlineSpeed { s with currentSpeedLevel := 3 }
  | .status => s
  | .test   => runSpeedTest s
  | .help   => s
  | .unknown => s

/-- One iteration of variant B `loop()`: sampling/debounce/RPM block first,
then `handleSerialCommands()`. -/
def bLoopStep (now : ℕ) (p1 p2 p3 : Bool) (tach : ℕ) (cmd : Option BCmd) (s : BState) : BState :=
  let s1 := bTickSample now p1 p2 p3 tach s
  match cmd with
  | none => s1
  | some c => handleSerialCommand c s1

/-- Variant B state right after `setup()`: zero-initialised globals and
`setCloudlineSpeed(FAN_OFF)`. -/
def initB : BState :=
  setCloudlineSpeed FAN_OFF
    { currentFanSpeed := 0, currentSpeedLevel := 0, lastSpeedChange := 0,
      lastUpdate := 0, OCR1A := 0,
      rpmSt := { lastRPMTime := 0, lastCount := 0, rpm := 0 } }

/-- Level-to-duty composition of variant B: the `updateCloudlineSpeed` switch
fed to `setCloudlineSpeed`. -/
def toDutyB (L : ℕ) : ℕ := setCloudlineSpeedDuty (levelToTarget L)

/-- States reachable from variant B startup by iterating `loop()`. -/
inductive ReachableB : BState → Prop
  | init : ReachableB initB
  | step (now : ℕ) (p1 p2 p3 : Bool) (tach : ℕ) (cmd : Option BCmd) {s : BState} :
      ReachableB s → ReachableB (bLoopStep now p1 p2 p3 tach cmd s)

/-- Spec-side description of the discrete-wire sampler, modelled from the
spec's words: the returned level is the highest asserted tier, 0 when no
line is asserted (`assertedᵢ` is the active-low reading of line `i`). -/
def highestAssertedA (a1 a2 a3 a4 : Bool) : ℕ :=
  max (if a4 then 4 else 0)
    (max (if a3 then 3 else 0) (max (if a2 then 2 else 0) (if a1 then 1 else 0)))

/-- Spec-side description of the 3-wire sampler, as `highestAssertedA`. -/
def highestAssertedB (a1 a2 a3 : Bool) : ℕ :=
  max (if a3 then 3 else 0) (max (if a2 then 2 else 0) (if a1 then 1 else 0))

end FanTranslator

namespace FanTranslator

/-! ## Duty-mapping facts (SpeedMapper) -/

/-- Concrete duty table of variant A: levels 0..4 map to 0, 128, 192, 256, 320. -/
lemma toDutyA_values :
    toDutyA 0 = 0 ∧ toDutyA 1 = 128 ∧ toDutyA 2 = 192 ∧
    toDutyA 3 = 256 ∧ toDutyA 4 = 320 := by
  refine ⟨?_, ?_, ?_, ?_, ?_⟩ <;>
    · norm_num [toDutyA, FAN_SPEEDS, setFanSpeedDuty, constrain] <;> decide

/-- Concrete duty table of variant B: levels 0..3 map to 0, 140, 217, 320. -/
lemma toDutyB_values :
    toDutyB 0 = 0 ∧ toDutyB 1 = 140 ∧ toDutyB 2 = 217 ∧ toDutyB 3 = 320 := by
  refine ⟨?_, ?_, ?_, ?_⟩ <;>
    · norm_num [toDutyB, levelToTarget, FAN_OFF, FAN_LOW, FAN_MEDIUM, FAN_HIGH,
        setCloudlineSpeedDuty, constrain] <;> decide

/-- Any duty emitted by variant A `setFanSpeed` is either exactly 0 or at
least `0.20 * 320 = 64`, for every (unclamped) input speed. -/
lemma setFanSpeedDuty_floor (q : ℚ) :
    setFanSpeedDuty q = 0 ∨ 64 ≤ setFanSpeedDuty q := by
  unfold setFanSpeedDuty constrain
  by_cases h : min 1 (max 0 q) = 0
  · left; simp [h]
  · right
    simp only [h, if_false]
    have hsp : (0 : ℚ) ≤ min 1 (max 0 q) :=
      le_min (by norm_num) (le_max_left 0 q)
    have h1 : (64 : ℚ) ≤ 320 * (0.20 + min 1 (max 0 q) * 0.80) := by nlinarith
    have h2 : (64 : ℤ) ≤ ⌊320 * (0.20 + min 1 (max 0 q) * 0.80)⌋ :=
      Int.le_floor.mpr (by exact_mod_cast h1)
    have h3 := Int.toNat_le_toNat h2
    simpa using h3

/-- Any duty emitted by variant B `setCloudlineSpeed` is either exactly 0 or
at least `minDuty * 320 = 64`, for every (unclamped) input speed. -/
lemma setCloudlineSpeedDuty_floor (q : ℚ) :
    setCloudlineSpeedDuty q = 0 ∨ 64 ≤ setCloudlineSpeedDuty q := by
  unfold setCloudlineSpeedDuty constrain
  by_cases h : min 1 (max 0 q) = 0
  · left; simp [h]
  · right
    simp only [h, if_false]
    have hsp : (0 : ℚ) ≤ min 1 (max 0 q) :=
      le_min (by norm_num) (le_max_left 0 q)
    have h1 : (64 : ℚ) ≤ 320 * (0.20 + min 1 (max 0 q) * (1 - 0.20)) := by nlinarith
    have h2 : (64 : ℤ) ≤ ⌊320 * (0.20 + min 1 (max 0 q) * (1 - 0.20))⌋ :=
      Int.le_floor.mpr (by exact_mod_cast h1)
    have h3 := Int.toNat_le_toNat h2
    simpa using h3

/-- Claim C1: level 0 maps to duty 0; every valid level above 0 maps to a duty
of at least `minDutyFraction * TOP = 0.20 * 320 = 64`; and no emitted duty is
ever strictly between 0 and 64, in either variant, for any input speed. -/
theorem C1_min_duty_floor :
    toDutyA 0 = 0 ∧
    (∀ L : ℕ, 0 < L → L ≤ 4 → 64 ≤ toDutyA L) ∧
    (∀ q : ℚ, setFanSpeedDuty q = 0 ∨ 64 ≤ setFanSpeedDuty q) ∧
    toDutyB 0 = 0 ∧
    (∀ L : ℕ, 0 < L → L ≤ 3 → 64 ≤ toDutyB L) ∧
    (∀ q : ℚ, setCloudlineSpeedDuty q = 0 ∨ 64 ≤ setCloudlineSpeedDuty q) := by
  obtain ⟨a0, a1, a2, a3, a4⟩ := toDutyA_values
  obtain ⟨b0, b1, b2, b3⟩ := toDutyB_values
  refine ⟨a0, ?_, setFanSpeedDuty_floor, b0, ?_, setCloudlineSpeedDuty_floor⟩
  · intro L hL hL4
    interval_cases L <;> omega
  · intro L hL hL3
    interval_cases L <;> omega

/-- Claim C1 witness: evaluated at level 0, level 1, and raw speed 1/1000. -/
theorem C1_min_duty_floor_witness :
    64 ≤ toDutyA 1 ∧ 64 ≤ toDutyB 1 :=
  ⟨C1_min_duty_floor.2.1 1 (by norm_num) (by norm_num),
   C1_min_duty_floor.2.2.2.2.1 1 (by norm_num) (by norm_num)⟩

/-- Claim C2: the level-to-duty composition is monotone non-decreasing on
valid levels, and strictly increasing above the off level, in both variants. -/
theorem C2_duty_monotone :
    (∀ L1 L2 : ℕ, L1 < L2 → L2 ≤ 4 →
      toDutyA L1 ≤ toDutyA L2 ∧ (0 < L1 → toDutyA L1 < toDutyA L2)) ∧
    (∀ L1 L2 : ℕ, L1 < L2 → L2 ≤ 3 →
      toDutyB L1 ≤ toDutyB L2 ∧ (0 < L1 → toDutyB L1 < toDutyB L2)) := by
  obtain ⟨a0, a1, a2, a3, a4⟩ := toDutyA_values
  obtain ⟨b0, b1, b2, b3⟩ := toDutyB_values
  constructor
  · intro L1 L2 h12 h2
    interval_cases L2 <;> interval_cases L1 <;> omega
  · intro L1 L2 h12 h2
    interval_cases L2 <;> interval_cases L1 <;> omega

/-- Claim C2 witness: evaluated at the pair (1, 2) in both variants. -/
theorem C2_duty_monotone_witness :
    (toDutyA 1 ≤ toDutyA 2 ∧ toDutyA 1 < toDutyA 2) ∧
    (toDutyB 1 ≤ toDutyB 2 ∧ toDutyB 1 < toDutyB 2) :=
  ⟨⟨(C2_duty_monotone.1 1 2 (by norm_num) (by norm_num)).1,
    (C2_duty_monotone.1 1 2 (by norm_num) (by norm_num)).2 (by norm_num)⟩,
   ⟨(C2_duty_monotone.2 1 2 (by norm_num) (by norm_num)).1,
    (C2_duty_monotone.2 1 2 (by norm_num) (by norm_num)).2 (by norm_num)⟩⟩

end FanTranslator
namespace FanTranslator

/-! ## Sampling/debounce facts (InputSampler / ModeArbiter, variant A) -/

/-- In manual mode the whole sampling block of variant A is skipped: the
state is returned untouched (including the RPM-estimator state). -/
lemma tickSample_manual (now : ℕ) (p1 p2 p3 p4 : Bool) (tach : ℕ) (s : AState)
    (h : s.manualMode = true) :
    tickSample now p1 p2 p3 p4 tach s = s := by
  unfold tickSample
  rw [if_neg]
  simp [h]

/-- The effective level after a sampling pass: the raw level is adopted
exactly when the block runs (50 ms cadence gate, not manual), the raw level
differs, and strictly more than 100 ms passed since the last accepted
change; otherwise the level is unchanged. -/
lemma tickSample_speedLevel (now : ℕ) (p1 p2 p3 p4 : Bool) (tach : ℕ) (s : AState) :
    (tickSample now p1 p2 p3 p4 tach s).speedLevel =
      if 50 < now - s.lastUpdate ∧ s.manualMode = false ∧
         readSpeedLevel p1 p2 p3 p4 ≠ s.speedLevel ∧ 100 < now - s.lastChange
      then readSpeedLevel p1 p2 p3 p4 else s.speedLevel := by
  unfold tickSample
  dsimp only
  split_ifs <;> simp_all [setFanSpeed]

/-- The debounce timestamp after a sampling pass: refreshed to `now` exactly
when a change is accepted, otherwise unchanged. -/
lemma tickSample_lastChange (now : ℕ) (p1 p2 p3 p4 : Bool) (tach : ℕ) (s : AState) :
    (tickSample now p1 p2 p3 p4 tach s).lastChange =
      if 50 < now - s.lastUpdate ∧ s.manualMode = false ∧
         readSpeedLevel p1 p2 p3 p4 ≠ s.speedLevel ∧ 100 < now - s.lastChange
      then now else s.lastChange := by
  unfold tickSample
  dsimp only
  split_ifs <;> simp_all [setFanSpeed]

/-- A sampling pass never touches the mode flag. -/
lemma tickSample_manualMode (now : ℕ) (p1 p2 p3 p4 : Bool) (tach : ℕ) (s : AState) :
    (tickSample now p1 p2 p3 p4 tach s).manualMode = s.manualMode := by
  unfold tickSample
  dsimp only
  split_ifs <;> simp_all [setFanSpeed]

/-- Unfolding of `runTicks` on a cons cell. -/
lemma runTicks_cons (e : TickIn) (ticks : List TickIn) (s : AState) :
    runTicks (e :: ticks) s =
      runTicks ticks (loopStep e.now e.p1 e.p2 e.p3 e.p4 e.tach none s) := rfl

/-- Command-free ticks whose times stay within 100 ms of the last accepted
change can neither move the effective level nor refresh the debounce
timestamp. -/
lemma runTicks_frozen (ticks : List TickIn) (s : AState) (t1 : ℕ)
    (hlc : s.lastChange = t1) (h : ∀ e ∈ ticks, e.now ≤ t1 + 100) :
    (runTicks ticks s).speedLevel = s.speedLevel ∧
    (runTicks ticks s).lastChange = t1 := by
  induction ticks generalizing s with
  | nil => exact ⟨rfl, hlc⟩
  | cons e rest ih =>
    rw [runTicks_cons]
    have he : e.now ≤ t1 + 100 := h e (List.mem_cons_self e rest)
    have hstep : (loopStep e.now e.p1 e.p2 e.p3 e.p4 e.tach none s).speedLevel = s.speedLevel ∧
        (loopStep e.now e.p1 e.p2 e.p3 e.p4 e.tach none s).lastChange = t1 := by
      have hcond : ¬(50 < e.now - s.lastUpdate ∧ s.manualMode = false ∧
          readSpeedLevel e.p1 e.p2 e.p3 e.p4 ≠ s.speedLevel ∧ 100 < e.now - s.lastChange) := by
        rintro ⟨-, -, -, hgap⟩
        omega
      show (tickSample e.now e.p1 e.p2 e.p3 e.p4 e.tach s).speedLevel = s.speedLevel ∧
        (tickSample e.now e.p1 e.p2 e.p3 e.p4 e.tach s).lastChange = t1
      rw [tickSample_speedLevel, tickSample_lastChange, if_neg hcond, if_neg hcond]
      exact ⟨rfl, hlc⟩
    obtain ⟨hl, hc⟩ := ih (loopStep e.now e.p1 e.p2 e.p3 e.p4 e.tach none s) hstep.2
      (fun x hx => h x (List.mem_cons_of_mem e hx))
    exact ⟨hl.trans hstep.1, hc⟩

end FanTranslator
namespace FanTranslator

/-- A `loop()` iteration with no pending serial command is exactly the
sampling block. -/
lemma loopStep_none (now : ℕ) (p1 p2 p3 p4 : Bool) (tach : ℕ) (s : AState) :
    loopStep now p1 p2 p3 p4 tach none s = tickSample now p1 p2 p3 p4 tach s := rfl

/-- Claim C5: in Auto mode a raw candidate becomes the new effective level
only if it differs from the current effective level and at least 100 ms have
elapsed since the last accepted change; consequently, after an accepted
change at time `t.now`, no command-free sequence of further `loop()`
iterations whose times stay within `t.now + 100` can change the effective
level again. -/
theorem C5_debounce_window (s : AState) (t : TickIn) (rest : List TickIn)
    (hchg : (loopStep t.now t.p1 t.p2 t.p3 t.p4 t.tach none s).speedLevel ≠ s.speedLevel)
    (hrest : ∀ e ∈ rest, e.now ≤ t.now + 100) :
    (readSpeedLevel t.p1 t.p2 t.p3 t.p4 ≠ s.speedLevel ∧ 100 ≤ t.now - s.lastChange) ∧
    (runTicks rest (loopStep t.now t.p1 t.p2 t.p3 t.p4 t.tach none s)).speedLevel =
      (loopStep t.now t.p1 t.p2 t.p3 t.p4 t.tach none s).speedLevel := by
  rw [loopStep_none] at hchg ⊢
  by_cases hcond : 50 < t.now - s.lastUpdate ∧ s.manualMode = false ∧
      readSpeedLevel t.p1 t.p2 t.p3 t.p4 ≠ s.speedLevel ∧ 100 < t.now - s.lastChange
  · refine ⟨⟨hcond.2.2.1, le_of_lt hcond.2.2.2⟩, ?_⟩
    have h1 : (tickSample t.now t.p1 t.p2 t.p3 t.p4 t.tach s).lastChange = t.now := by
      rw [tickSample_lastChange, if_pos hcond]
    exact (runTicks_frozen rest _ t.now h1 hrest).1
  · exfalso
    apply hchg
    rw [tickSample_speedLevel, if_neg hcond]

/-- Claim C5 witness: from startup, a tick at 200 ms with the low line
asserted is accepted (level 0 → 1); a tick 50 ms later with the medium line
asserted is inside the 100 ms window and is rejected. -/
theorem C5_debounce_window_witness :
    (readSpeedLevel false true true true ≠ initA.speedLevel ∧
      100 ≤ 200 - initA.lastChange) ∧
    (runTicks [⟨250, true, false, true, true, 0⟩]
        (loopStep 200 false true true true 0 none initA)).speedLevel =
      (loopStep 200 false true true true 0 none initA).speedLevel :=
  C5_debounce_window initA ⟨200, false, true, true, true, 0⟩
    [⟨250, true, false, true, true, 0⟩] (by decide) (by decide)

end FanTranslator
namespace FanTranslator

/-- While the manual flag is set, command-free `loop()` iterations leave the
variant A state completely unchanged. -/
lemma runTicks_manual_id (ticks : List TickIn) (s : AState) (h : s.manualMode = true) :
    runTicks ticks s = s := by
  induction ticks generalizing s with
  | nil => rfl
  | cons e rest ih =>
    rw [runTicks_cons, loopStep_none, tickSample_manual e.now e.p1 e.p2 e.p3 e.p4 e.tach s h]
    exact ih s h

/-- Claim C3 counterexample: in the 3-level sketch there is no manual mode at
all. The serial command `high` does set level 3 immediately, but with all
speed lines unasserted the very next sampling pass (100 ms later, and with no
`auto` command in between — the variant has no such command) pulls the
effective level straight back to 0: the commanded level does not persist
until a return-to-auto command. -/
theorem C3_counterexample :
    (bLoopStep 1000 true true true 0 (some BCmd.high) initB).currentSpeedLevel = 3 ∧
    (bLoopStep 1100 true true true 0 none
        (bLoopStep 1000 true true true 0 (some BCmd.high) initB)).currentSpeedLevel = 0 := by
  decide

/-- Claim C3 amended: in the 5-level variant only, an explicit speed command
processed by `handleCommands` immediately (same iteration) sets the manual
flag, the commanded effective level, and the corresponding duty, regardless
of the raw input lines and of the debounce timer; the frozen state then
persists over every command-free iteration. -/
theorem C3_manual_override (s : AState) (now : ℕ) (p1 p2 p3 p4 : Bool)
    (tach : ℕ) (c : Cmd) (L : ℕ)
    (hc : (c = .off ∧ L = 0) ∨ (c = .low ∧ L = 1) ∨ (c = .medium ∧ L = 2) ∨
          (c = .high ∧ L = 3) ∨ (c = .max ∧ L = 4)) :
    (loopStep now p1 p2 p3 p4 tach (some c) s).manualMode = true ∧
    (loopStep now p1 p2 p3 p4 tach (some c) s).speedLevel = L ∧
    (loopStep now p1 p2 p3 p4 tach (some c) s).OCR1A = toDutyA L ∧
    ∀ ticks : List TickIn,
      runTicks ticks (loopStep now p1 p2 p3 p4 tach (some c) s) =
        loopStep now p1 p2 p3 p4 tach (some c) s := by
  rcases hc with ⟨hc, hL⟩ | ⟨hc, hL⟩ | ⟨hc, hL⟩ | ⟨hc, hL⟩ | ⟨hc, hL⟩ <;> subst hc <;> subst hL <;>
    exact ⟨rfl, rfl, rfl, fun ticks => runTicks_manual_id ticks _ rfl⟩

/-- Claim C3 amended witness: the `high` command at 10 ms from startup
freezes level 3 and duty 256; a later tick with the low line asserted leaves
the state untouched. -/
theorem C3_manual_override_witness :
    (loopStep 10 true true true true 0 (some Cmd.high) initA).manualMode = true ∧
    (loopStep 10 true true true true 0 (some Cmd.high) initA).speedLevel = 3 ∧
    (loopStep 10 true true true true 0 (some Cmd.high) initA).OCR1A = toDutyA 3 ∧
    runTicks [⟨200, false, true, true, true, 0⟩]
        (loopStep 10 true true true true 0 (some Cmd.high) initA) =
      loopStep 10 true true true true 0 (some Cmd.high) initA := by
  obtain ⟨h1, h2, h3, h4⟩ :=
    C3_manual_override initA 10 true true true true 0 Cmd.high 3
      (Or.inr (Or.inr (Or.inr (Or.inl ⟨rfl, rfl⟩))))
  exact ⟨h1, h2, h3, h4 _⟩

end FanTranslator
namespace FanTranslator

/-- Claim C4 counterexample: auto-mode change accepted at 200 ms (low line),
`max` commanded at 210 ms, `auto` at 220 ms. The first post-auto sampling
pass at 280 ms does run (the 50 ms cadence gate passes, `lastUpdate` becomes
280) and sees raw level 2, yet the effective level stays 4, because only
80 ms have elapsed since the last accepted change: the first post-auto
sample is NOT adopted immediately — debounce is not bypassed. -/
theorem C4_counterexample :
    (loopStep 220 true true true true 0 (some Cmd.auto)
        (loopStep 210 true true true true 0 (some Cmd.max)
          (loopStep 200 false true true true 0 none initA))).manualMode = false ∧
    (loopStep 220 true true true true 0 (some Cmd.auto)
        (loopStep 210 true true true true 0 (some Cmd.max)
          (loopStep 200 false true true true 0 none initA))).speedLevel = 4 ∧
    readSpeedLevel true false true true = 2 ∧
    (loopStep 280 true false true true 0 none
        (loopStep 220 true true true true 0 (some Cmd.auto)
          (loopStep 210 true true true true 0 (some Cmd.max)
            (loopStep 200 false true true true 0 none initA)))).lastUpdate = 280 ∧
    (loopStep 280 true false true true 0 none
        (loopStep 220 true true true true 0 (some Cmd.auto)
          (loopStep 210 true true true true 0 (some Cmd.max)
            (loopStep 200 false true true true 0 none initA)))).speedLevel = 4 := by
  decide

/-- Claim C4 amended: an `auto` command issued in manual mode clears the
manual flag and nothing else; the next raw sample is then subject to the
ordinary debounce test — it is adopted when it differs from the effective
level and the 50 ms cadence gate and the 100 ms debounce gate both pass, and
it is NOT adopted (the level is unchanged) whenever at most 100 ms have
elapsed since the last accepted change. -/
theorem C4_auto_resume (s : AState) (now1 now2 : ℕ) (p1 p2 p3 p4 q1 q2 q3 q4 : Bool)
    (tach1 tach2 : ℕ) (hman : s.manualMode = true) :
    loopStep now1 p1 p2 p3 p4 tach1 (some Cmd.auto) s = { s with manualMode := false } ∧
    ((50 < now2 - s.lastUpdate ∧ readSpeedLevel q1 q2 q3 q4 ≠ s.speedLevel ∧
        100 < now2 - s.lastChange) →
      (loopStep now2 q1 q2 q3 q4 tach2 none
          (loopStep now1 p1 p2 p3 p4 tach1 (some Cmd.auto) s)).speedLevel =
        readSpeedLevel q1 q2 q3 q4) ∧
    (now2 - s.lastChange ≤ 100 →
      (loopStep now2 q1 q2 q3 q4 tach2 none
          (loopStep now1 p1 p2 p3 p4 tach1 (some Cmd.auto) s)).speedLevel =
        s.speedLevel) := by
  have hs1 : loopStep now1 p1 p2 p3 p4 tach1 (some Cmd.auto) s = { s with manualMode := false } := by
    show handleCommand .auto (tickSample now1 p1 p2 p3 p4 tach1 s) = _
    rw [tickSample_manual now1 p1 p2 p3 p4 tach1 s hman]
    rfl
  refine ⟨hs1, ?_, ?_⟩
  · rintro ⟨hgate, hdiff, hgap⟩
    rw [hs1, loopStep_none, tickSample_speedLevel]
    rw [if_pos]
    exact ⟨hgate, rfl, hdiff, hgap⟩
  · intro hgap
    rw [hs1, loopStep_none, tickSample_speedLevel]
    rw [if_neg]
    rintro ⟨-, -, -, hgt⟩
    have hgt2 : 100 < now2 - s.lastChange := hgt
    omega

/-- Claim C4 amended witness: from a frozen manual state at level 0, `auto`
at 0 ms clears the flag; a tick at 280 ms with the medium line asserted
passes all gates and is adopted. -/
theorem C4_auto_resume_witness :
    loopStep 0 true true true true 0 (some Cmd.auto) { initA with manualMode := true } =
      { ({ initA with manualMode := true } : AState) with manualMode := false } ∧
    (loopStep 280 true false true true 0 none
        (loopStep 0 true true true true 0 (some Cmd.auto)
          { initA with manualMode := true })).speedLevel =
      readSpeedLevel true false true true := by
  obtain ⟨h1, h2, h3⟩ :=
    C4_auto_resume { initA with manualMode := true } 0 280
      true true true true true false true true 0 0 rfl
  exact ⟨h1, h2 (by decide)⟩

end FanTranslator
namespace FanTranslator

/-- Claim C6: one `updateRPM` call. If at least one 1000 ms window has
elapsed since the stored window start, the new estimate is
`(currentPulseCount - pulseCountAtWindowStart) * 60 / 2` and both window
markers are refreshed; otherwise estimate and markers are left unchanged. -/
theorem C6_rpm_step (now tach : ℕ) (r : RpmState) :
    (1000 ≤ now - r.lastRPMTime →
      updateRPM now tach r =
        { lastRPMTime := now, lastCount := tach,
          rpm := ((tach - r.lastCount : ℕ) * 60 : ℚ) / 2 }) ∧
    (now - r.lastRPMTime < 1000 → updateRPM now tach r = r) := by
  constructor
  · intro h
    rw [updateRPM, if_pos h]
  · intro h
    rw [updateRPM, if_neg (by omega)]

/-- Claim C6 witness: a full window (1500 ms ≥ 1000 ms, 120 pulses) yields
rpm `120 * 60 / 2 = 3600` with markers refreshed; an elapsed time of 900 ms
leaves the state ⟨600, 50, 7⟩ untouched. -/
theorem C6_rpm_step_witness :
    updateRPM 1500 120 ⟨0, 0, 0⟩ = ⟨1500, 120, ((120 - 0 : ℕ) * 60 : ℚ) / 2⟩ ∧
    updateRPM 1500 120 ⟨600, 50, 7⟩ = ⟨600, 50, 7⟩ :=
  ⟨(C6_rpm_step 1500 120 ⟨0, 0, 0⟩).1 (by norm_num),
   (C6_rpm_step 1500 120 ⟨600, 50, 7⟩).2 (by norm_num)⟩

/-- Claim C7 (code defect in the 5-level sketch): `updateRPM()` sits inside
the `if (millis() - lastUpdate > 50 && !manualMode)` block, so with the
manual flag set the RPM estimator is never invoked. Concretely: from a
manual-mode startup state, a tick at 5000 ms with 100 accumulated pulses —
a fully elapsed window — leaves the whole RPM state untouched, although a
direct `updateRPM` call at the same instant would refresh the window start
to 5000 and compute rpm `100 * 60 / 2 = 3000`. The 3-level sketch, whose
loop has no manual flag, does refresh the window start on the same tick. -/
theorem C7_rpm_skipped_in_manual :
    1000 ≤ 5000 - ({ initA with manualMode := true } : AState).rpmSt.lastRPMTime ∧
    (loopStep 5000 true true true true 100 none
        { initA with manualMode := true }).rpmSt =
      ({ initA with manualMode := true } : AState).rpmSt ∧
    (updateRPM 5000 100 ({ initA with manualMode := true } : AState).rpmSt).lastRPMTime = 5000 ∧
    (updateRPM 5000 100 ({ initA with manualMode := true } : AState).rpmSt).rpm = 3000 ∧
    (bLoopStep 5000 true true true 100 none initB).rpmSt.lastRPMTime = 5000 := by
  refine ⟨by decide, rfl, rfl, ?_, rfl⟩
  norm_num [initA, setFanSpeed, updateRPM]

/-- Claim C8: for every combination of the active-low speed-line states, the
sampler of either variant returns the highest asserted tier (higher level
wins when several lines are asserted), and 0 when no line is asserted. -/
theorem C8_highest_line_wins :
    (∀ p1 p2 p3 p4 : Bool,
      readSpeedLevel p1 p2 p3 p4 = highestAssertedA (!p1) (!p2) (!p3) (!p4)) ∧
    (∀ p1 p2 p3 : Bool,
      readThermadorSpeed p1 p2 p3 = highestAssertedB (!p1) (!p2) (!p3)) := by
  constructor
  · decide
  · decide

end FanTranslator
namespace FanTranslator

/-- Every assignment performed by one variant A `loop()` iteration keeps the
level within 0..4. -/
lemma loopStep_level_le (now : ℕ) (p1 p2 p3 p4 : Bool) (tach : ℕ) (cmd : Option Cmd)
    (s : AState) (ih : s.speedLevel ≤ 4) :
    (loopStep now p1 p2 p3 p4 tach cmd s).speedLevel ≤ 4 := by
  have hraw : ∀ q1 q2 q3 q4 : Bool, readSpeedLevel q1 q2 q3 q4 ≤ 4 := by decide
  have htick : (tickSample now p1 p2 p3 p4 tach s).speedLevel ≤ 4 := by
    rw [tickSample_speedLevel]
    split_ifs with h
    · exact hraw p1 p2 p3 p4
    · exact ih
  cases cmd with
  | none => exact htick
  | some c =>
    cases c <;>
      first
        | exact htick
        | exact show (0 : ℕ) ≤ 4 by omega
        | exact show (1 : ℕ) ≤ 4 by omega
        | exact show (2 : ℕ) ≤ 4 by omega
        | exact show (3 : ℕ) ≤ 4 by omega
        | exact show (4 : ℕ) ≤ 4 by omega

/-- Every assignment performed by one variant B `loop()` iteration keeps the
level within 0..3. -/
lemma bLoopStep_level_le (now : ℕ) (p1 p2 p3 : Bool) (tach : ℕ) (cmd : Option BCmd)
    (s : BState) (ih : s.currentSpeedLevel ≤ 3) :
    (bLoopStep now p1 p2 p3 tach cmd s).currentSpeedLevel ≤ 3 := by
  have hraw : ∀ q1 q2 q3 : Bool, readThermadorSpeed q1 q2 q3 ≤ 3 := by decide
  have htick : (bTickSample now p1 p2 p3 tach s).currentSpeedLevel ≤ 3 := by
    unfold bTickSample
    dsimp only
    split_ifs <;> first | exact hraw p1 p2 p3 | exact ih
  cases cmd with
  | none => exact htick
  | some c =>
    cases c <;>
      first
        | exact htick
        | exact show (0 : ℕ) ≤ 3 by omega
        | exact show (1 : ℕ) ≤ 3 by omega
        | exact show (2 : ℕ) ≤ 3 by omega
        | exact show (3 : ℕ) ≤ 3 by omega

/-- Claim C10: in every reachable state, the effective level lies within the
index range of the configured speed table — 0..4 (the 5-entry `FAN_SPEEDS`)
in the 5-level variant, 0..3 in the 3-level variant — so every
`FAN_SPEEDS[speedLevel]` lookup is in bounds. It is 0 at startup and every
assignment (sampling path, each serial command, the test routine) preserves
the range. -/
theorem C10_level_in_range :
    (∀ s : AState, ReachableA s → s.speedLevel ≤ 4 ∧ s.speedLevel < FAN_SPEEDS.length) ∧
    (∀ s : BState, ReachableB s → s.currentSpeedLevel ≤ 3) := by
  constructor
  · intro s h
    have h4 : s.speedLevel ≤ 4 := by
      induction h with
      | init => decide
      | step now p1 p2 p3 p4 tach cmd h ih => exact loopStep_level_le now p1 p2 p3 p4 tach cmd _ ih
    have hlen : FAN_SPEEDS.length = 5 := rfl
    exact ⟨h4, by omega⟩
  · intro s h
    induction h with
    | init => decide
    | step now p1 p2 p3 tach cmd h ih => exact bLoopStep_level_le now p1 p2 p3 tach cmd _ ih

/-- Claim C10 witness: evaluated at the two startup states. -/
theorem C10_level_in_range_witness :
    (initA.speedLevel ≤ 4 ∧ initA.speedLevel < FAN_SPEEDS.length) ∧
    initB.currentSpeedLevel ≤ 3 :=
  ⟨C10_level_in_range.1 initA ReachableA.init, C10_level_in_range.2 initB ReachableB.init⟩

end FanTranslator
